import Mathlib

/-!
Verification of the button design system behavior layer (src/script.js).

The JavaScript source is shallowly embedded: the DOM is a list of widgets
carrying the attributes the code reads and writes, timers are explicit
records fired by an external scheduler, and each handler/public method of
the `ButtonSystem` class becomes a pure Lean function on that state.
-/

set_option maxHeartbeats 1000000

namespace BtnSys

/- ======================================================================
   Constants (the DEFAULTS table and i18n defaults of script.js)
   ====================================================================== -/

def loadingDurationDefault : Int := 2000

def disableDurationDefault : Int := 3000

def focusDelay : Nat := 50

def announceDelayMs : Nat := 150

def minDuration : Int := 100

def maxDuration : Int := 30000

def i18nLoading : String := "Loading, please wait"

def i18nComplete : String := "Action completed"

/- ======================================================================
   Utility functions of script.js
   ====================================================================== -/

/-- `clamp(value, min, max) = Math.min(Math.max(value, min), max)`. -/
def clamp (value lo hi : Int) : Int := min (max value lo) hi

/-- One character of the whitespace that JavaScript `parseInt` skips before
the number: the ECMA-262 WhiteSpace set (tab, VT, FF, space, no-break
space, ZWNBSP/BOM and every Zs space separator: U+1680, U+2000-U+200A,
U+202F, U+205F, U+3000) together with the LineTerminator set (LF, CR,
U+2028 line separator, U+2029 paragraph separator). -/
def isJsSpace (c : Char) : Bool :=
  (9 ≤ c.toNat && c.toNat ≤ 13) || c.toNat == 32 || c.toNat == 160 ||
  c.toNat == 5760 || (8192 ≤ c.toNat && c.toNat ≤ 8202) ||
  c.toNat == 8232 || c.toNat == 8233 || c.toNat == 8239 ||
  c.toNat == 8287 || c.toNat == 12288 || c.toNat == 65279

/-- ASCII decimal digit (the only digits `parseInt(value, 10)` consumes). -/
def isDigitChar (c : Char) : Bool := 48 ≤ c.toNat && c.toNat ≤ 57

/-- Value of a list of decimal digit characters, most significant first. -/
def digitsToNat (cs : List Char) : Nat := cs.foldl (fun a c => a * 10 + (c.toNat - 48)) 0

/-- The maximal leading run of digits, as a number; `none` when there is no
leading digit (which is how `parseInt` produces `NaN`). -/
def leadingDigits (cs : List Char) : Option Nat :=
  match cs.takeWhile isDigitChar with
  | [] => none
  | ds => some (digitsToNat ds)

/-- Model of JavaScript `parseInt(s, 10)`: skip leading whitespace, read an
optional sign, then the leading run of decimal digits; `none` models `NaN`.
Trailing garbage is ignored, exactly as in JavaScript. -/
def jsParseIntChars (cs : List Char) : Option Int :=
  match cs.dropWhile isJsSpace with
  | [] => none
  | c :: rest =>
    if c == '-' then (leadingDigits rest).map (fun n => -(n : Int))
    else if c == '+' then (leadingDigits rest).map (fun n => (n : Int))
    else (leadingDigits (c :: rest)).map (fun n => (n : Int))

def jsParseInt10 (s : String) : Option Int := jsParseIntChars s.toList

/-- `parseDuration(value, defaultValue)` from script.js.  The attribute value
is `none` when the attribute is absent; the empty string is falsy in the
`if (!value)` guard, like `null`. -/
def parseDuration (value : Option String) (defaultValue : Int) : Int :=
  match value with
  | none => defaultValue
  | some s =>
    if s = "" then defaultValue
    else
      match jsParseInt10 s with
      | none => defaultValue
      | some parsed => if parsed < 0 then defaultValue else clamp parsed minDuration maxDuration

/-- One character allowed by the group-name whitelist `/^[a-zA-Z0-9_-]+$/`. -/
def isValidGroupChar (c : Char) : Bool :=
  (97 ≤ c.toNat && c.toNat ≤ 122) ||   -- a-z
  (65 ≤ c.toNat && c.toNat ≤ 90) ||    -- A-Z
  (48 ≤ c.toNat && c.toNat ≤ 57) ||    -- 0-9
  c.toNat == 95 || c.toNat == 45       -- underscore, hyphen

/-- `isValidGroupName` from script.js: the regex demands one or more allowed
characters, so the empty string is invalid. -/
def isValidGroupName (s : String) : Bool :=
  !s.toList.isEmpty && s.toList.all isValidGroupChar

/- ======================================================================
   The DOM model: widgets and their attributes
   ====================================================================== -/

/-- A widget (button element) of the host tree.  `wid` is the element's
identity; the remaining fields are the attributes and properties that
script.js reads or writes.  Attribute fields are `Option String` (`none`
models an absent attribute, matching `getAttribute` returning `null`). -/
structure Widget where
  wid : Nat
  connected : Bool                      -- element.isConnected
  pressed : Option String               -- aria-pressed
  selectedClass : Bool                  -- classList contains 'btn--selected'
  toggleGroupAttr : Option String       -- data-toggle-group
  loadingClass : Bool                   -- classList contains 'btn--loading'
  busy : Option String                  -- aria-busy
  disabled : Bool                       -- the .disabled property
  ariaDisabled : Option String          -- aria-disabled
  innerHTML : String
  loadingDurationAttr : Option String   -- data-loading-duration
  disableDurationAttr : Option String   -- data-disable-duration
  deriving DecidableEq

/-- `document.querySelector`-style lookup of a widget by identity. -/
def findW (ws : List Widget) (i : Nat) : Option Widget :=
  ws.find? (fun w => w.wid == i)

/-- Mutate the widget with identity `i` in place. -/
def updW (ws : List Widget) (i : Nat) (f : Widget → Widget) : List Widget :=
  ws.map (fun w => if w.wid = i then f w else w)

/-- `getAttribute(...) === 'true'`. -/
def attrTrue (a : Option String) : Bool := a == some "true"

/-- `String(b)` for a boolean. -/
def boolStr (b : Bool) : String := if b then "true" else "false"

/-- The aria-pressed attribute of widget `i`, as read back from the tree. -/
def pressedAttr (ws : List Widget) (i : Nat) : Option String :=
  match findW ws i with
  | some w => w.pressed
  | none => none

/-- Membership in toggle group `g` as computed by the code's
`querySelectorAll('[data-toggle-group="g"]')`: attribute match, restricted
to elements attached to the document. -/
def memberB (g : String) (w : Widget) : Bool :=
  w.connected && w.toggleGroupAttr == some g

/-- A bubbling custom event dispatched by the system (`_dispatchEvent`).
`pressedDetail` carries the `pressed` field of the detail when present. -/
structure DEvent where
  target : Nat
  name : String
  pressedDetail : Option Bool
  deriving DecidableEq

/- ======================================================================
   ToggleController: _handleToggle, setPressed, setGroupValue
   ====================================================================== -/

/-- The ungrouped branch of `_handleToggle`: flip aria-pressed, toggle the
selected class, and dispatch `toggle` with the resulting pressed boolean. -/
def standardToggle (ws : List Widget) (bid : Nat) (b : Widget) : List Widget × List DEvent :=
  let isPressed := attrTrue b.pressed
  let newState := !isPressed
  let ws2 := updW ws bid (fun w => { w with pressed := some (boolStr newState), selectedClass := newState })
  (ws2, [⟨bid, "toggle", some (attrTrue (pressedAttr ws2 bid))⟩])

/-- `_handleToggle(button)` from script.js.  An empty `data-toggle-group`
attribute is falsy in `if (toggleGroup)`, so it selects the ungrouped
branch; a nonempty name failing `isValidGroupName` is a silent no-op. -/
def handleToggle (ws : List Widget) (bid : Nat) : List Widget × List DEvent :=
  match findW ws bid with
  | none => (ws, [])
  | some b =>
    match b.toggleGroupAttr with
    | none => standardToggle ws bid b
    | some g =>
      if g = "" then standardToggle ws bid b
      else if !(isValidGroupName g) then (ws, [])
      else
        let ws1 := ws.map (fun w =>
          if memberB g w && w.wid != bid then
            { w with pressed := some "false", selectedClass := false }
          else w)
        let ws2 := updW ws1 bid (fun w => { w with pressed := some "true", selectedClass := true })
        (ws2, [⟨bid, "toggle", some (attrTrue (pressedAttr ws2 bid))⟩])

/-- `setGroupValue(groupName, activeButton)` from script.js.  `active` is the
identity of the `activeButton` argument (`none` models a falsy argument);
`btn === activeButton` is identity comparison. -/
def setGroupValue (ws : List Widget) (g : String) (active : Option Nat) : List Widget × List DEvent :=
  if !(isValidGroupName g) then (ws, [])
  else
    let ws2 := ws.map (fun w =>
      if memberB g w then
        let isActive : Bool := some w.wid == active
        { w with pressed := some (boolStr isActive), selectedClass := isActive }
      else w)
    match active with
    | some a => (ws2, [⟨a, "toggle", some true⟩])
    | none => (ws2, [])

/-- `setPressed(button, pressed)` from script.js. -/
def setPressed (ws : List Widget) (b : Option Nat) (pressed : Bool) : List Widget × List DEvent :=
  match b with
  | none => (ws, [])
  | some bid =>
    let ws2 := updW ws bid (fun w => { w with pressed := some (boolStr pressed), selectedClass := pressed })
    (ws2, [⟨bid, "toggle", some pressed⟩])

/- ======================================================================
   Decidable observations used in the theorems
   ====================================================================== -/

/-- Every member of group `g` is pressed exactly when it is the widget `i`:
the mutual-exclusion property of a toggle group. -/
def mutualExclusion (g : String) (i : Nat) (ws : List Widget) : Bool :=
  ws.all (fun w => !(memberB g w) || (attrTrue w.pressed == (w.wid == i)))

/-- Some member of group `g` with identity `i` is pressed. -/
def activePressed (g : String) (i : Nat) (ws : List Widget) : Bool :=
  ws.any (fun w => memberB g w && w.wid == i && attrTrue w.pressed)

/-- Number of members of group `g` that are pressed. -/
def pressedCount (g : String) (ws : List Widget) : Nat :=
  (ws.filter (fun w => memberB g w && attrTrue w.pressed)).length

/- ======================================================================
   DropdownController: open/close lifecycle and the tracked open set
   ====================================================================== -/

/-- A dropdown composite `{trigger, menu}`.  `hasTrigger`/`hasMenu` record
whether `querySelector` finds the structural pieces; `triggerExpanded` and
`containerExpanded` are the aria-expanded attributes of the trigger and of
the container; `menuPosition` is the menu's data-position attribute.
The frame-deferred positioning/focus work of `_openDropdown` only touches
`menuPosition` and focus, not the open/closed state modelled here. -/
structure Dropdown where
  did : Nat
  connected : Bool
  hasTrigger : Bool
  hasMenu : Bool
  triggerExpanded : Bool
  containerExpanded : Bool
  menuPosition : Option String
  deriving DecidableEq

/-- The dropdown-relevant state of the `ButtonSystem` singleton: the host
tree's dropdowns plus the `_openDropdowns` tracking set (kept as a list in
insertion order, which is how a JavaScript `Set` iterates). -/
structure DropState where
  dropdowns : List Dropdown
  openSet : List Nat
  deriving DecidableEq

def findD (ds : List Dropdown) (i : Nat) : Option Dropdown :=
  ds.find? (fun d => d.did == i)

/-- The per-element effect of `_closeDropdown`: the trigger's aria-expanded
is cleared only when a trigger is found, the container's is always cleared,
and the menu's data-position is cleared only when a menu is found. -/
def closeW (d : Dropdown) : Dropdown :=
  { d with
    triggerExpanded := if d.hasTrigger then false else d.triggerExpanded,
    containerExpanded := false,
    menuPosition := if d.hasMenu then none else d.menuPosition }

/-- `_closeDropdown(dropdown)`: mutate the element and drop it from the
`_openDropdowns` set. -/
def closeDropdown (s : DropState) (i : Nat) : DropState :=
  { dropdowns := s.dropdowns.map (fun d => if d.did = i then closeW d else d),
    openSet := s.openSet.filter (fun j => j != i) }

/-- `isElementConnected` for the dropdown with identity `i`. -/
def connectedAt (ds : List Dropdown) (i : Nat) : Bool :=
  ds.any (fun d => d.did == i && d.connected)

/-- The `forEach` loop body of `_closeAllDropdowns`: close each tracked
dropdown that is still connected. -/
def closeAllLoop : DropState → List Nat → DropState
  | s, [] => s
  | s, i :: rest =>
    closeAllLoop (if connectedAt s.dropdowns i then closeDropdown s i else s) rest

/-- `_closeAllDropdowns()`: run the loop over the tracked set, then clear
the set unconditionally. -/
def closeAllDropdowns (s : DropState) : DropState :=
  let s1 := closeAllLoop s s.openSet
  { s1 with openSet := [] }

/-- The per-element effect of `_openDropdown`: both aria-expanded
attributes are set (the caller has already checked trigger and menu exist). -/
def openW (d : Dropdown) : Dropdown :=
  { d with triggerExpanded := true, containerExpanded := true }

/-- The synchronous part of `_openDropdown(trigger, dropdown, menu)`: set
the expanded attributes and add to the tracking set.  Positioning and focus
are deferred to the next animation frame and do not change this state. -/
def openDropdownPriv (s : DropState) (i : Nat) : DropState :=
  { dropdowns := s.dropdowns.map (fun d => if d.did = i then openW d else d),
    openSet := if s.openSet.contains i then s.openSet else s.openSet ++ [i] }

/-- The trigger-click branch of `_handleDropdown`: read the expanded state,
close all dropdowns, and reopen only when the dropdown was not expanded. -/
def handleDropdownTriggerClick (s : DropState) (i : Nat) : DropState :=
  match findD s.dropdowns i with
  | none => s
  | some d =>
    if d.hasTrigger && d.hasMenu then
      let isExpanded := d.triggerExpanded
      let s1 := closeAllDropdowns s
      if !isExpanded then openDropdownPriv s1 i else s1
    else s

/-- The public `openDropdown(dropdown)` method: skip when trigger or menu is
missing, otherwise close all dropdowns and open this one. -/
def openDropdownPublic (s : DropState) (i : Nat) : DropState :=
  match findD s.dropdowns i with
  | none => s
  | some d =>
    if d.hasTrigger && d.hasMenu then
      openDropdownPriv (closeAllDropdowns s) i
    else s

/-- The ArrowDown branch of `_handleDropdownKeyboard`: when the dropdown is
closed it is opened directly via `_openDropdown`; when open, only focus
moves (no open/closed state change). -/
def handleDropdownArrowDown (s : DropState) (i : Nat) : DropState :=
  match findD s.dropdowns i with
  | none => s
  | some d =>
    if d.hasTrigger && d.hasMenu then
      if !d.triggerExpanded then openDropdownPriv s i else s
    else s

/-- Every connected dropdown whose container is expanded is the dropdown
`i`: the single-open observation. -/
def onlyOpen (i : Nat) (s : DropState) : Bool :=
  s.dropdowns.all (fun d => !(d.connected && d.containerExpanded) || d.did == i)

/-- Every connected expanded dropdown is tracked in `_openDropdowns`: the
consistency invariant between the set and the aria-expanded attributes. -/
def openTracked (s : DropState) : Bool :=
  s.dropdowns.all (fun d => !(d.connected && d.containerExpanded) || s.openSet.contains d.did)

/-- Number of connected dropdowns whose container is expanded. -/
def openCount (s : DropState) : Nat :=
  (s.dropdowns.filter (fun d => d.connected && d.containerExpanded)).length

/- ======================================================================
   TransientStateManager: loading / auto-disable timers, setLoading,
   cancelLoading, and the per-widget bookkeeping WeakMaps
   ====================================================================== -/

/-- The snapshot stored in `buttonOriginalContent` (the `LoadingState`
typedef of script.js). -/
structure Snapshot where
  innerHTML : String
  disabled : Bool
  deriving DecidableEq

inductive TKind where
  | loading
  | autoDisable
  deriving DecidableEq

/-- A scheduled `setTimeout` callback.  `promiseId` is the promise resolved
by the callback when the timer was started by `setLoading`; `delay` is the
validated duration it was scheduled with. -/
structure Timer where
  tid : Nat
  widget : Nat
  kind : TKind
  promiseId : Option Nat
  delay : Int
  deriving DecidableEq

/-- Association-list lookup (the WeakMap `get`). -/
def alookup {α : Type} (l : List (Nat × α)) (k : Nat) : Option α :=
  (l.find? (fun p => p.1 == k)).map Prod.snd

/-- Association-list update (the WeakMap `set`). -/
def aset {α : Type} (l : List (Nat × α)) (k : Nat) (v : α) : List (Nat × α) :=
  (l.filter (fun p => p.1 != k)) ++ [(k, v)]

/-- Association-list removal (the WeakMap `delete`). -/
def adel {α : Type} (l : List (Nat × α)) (k : Nat) : List (Nat × α) :=
  l.filter (fun p => p.1 != k)

/-- `clearTimeout(existingTimeout)` guarded by `if (existingTimeout)`:
remove the pending timer with the given id, if any.  Timer ids are
allocated from 1 so presence in the map is the same as truthiness. -/
def clearTimeoutOpt (pend : List Timer) (t : Option Nat) : List Timer :=
  match t with
  | none => pend
  | some i => pend.filter (fun tm => tm.tid != i)

/-- The whole mutable state touched by the timer manager: the tree, the two
WeakMaps (`buttonTimeouts`, `buttonOriginalContent`), the scheduled
timeouts, the emitted domain events, the messages passed to `_announce`,
the settled promises of `setLoading` calls, and the id allocators. -/
structure SysSt where
  widgets : List Widget
  timeouts : List (Nat × Nat)
  snapshots : List (Nat × Snapshot)
  pending : List Timer
  events : List DEvent
  announcements : List String
  resolvedP : List Nat
  rejectedP : List Nat
  nextTid : Nat
  nextPid : Nat
  deriving DecidableEq

/-- `isElementConnected(button)` over the modelled tree. -/
def connectedW (ws : List Widget) (i : Nat) : Bool :=
  match findW ws i with
  | some w => w.connected
  | none => false

/-- `_resetLoadingState(button)` from script.js: clear the loading class and
aria-busy, restore the snapshot when one was stored (else just re-enable),
drop the bookkeeping, announce completion, and dispatch `loadingComplete`. -/
def resetLoadingState (s : SysSt) (b : Nat) : SysSt :=
  let original := alookup s.snapshots b
  let ws1 := updW s.widgets b (fun w => { w with loadingClass := false, busy := some "false" })
  let ws2 :=
    match original with
    | some o => updW ws1 b (fun w => { w with disabled := o.disabled, innerHTML := o.innerHTML })
    | none => updW ws1 b (fun w => { w with disabled := false })
  { s with
    widgets := ws2,
    snapshots := match original with
      | some _ => adel s.snapshots b
      | none => s.snapshots,
    timeouts := adel s.timeouts b,
    announcements := s.announcements ++ [i18nComplete],
    events := s.events ++ [⟨b, "loadingComplete", none⟩] }

/-- `_handleLoading(button, event)` from script.js (the click path): no
re-entry while the loading class is present; otherwise snapshot, apply the
loading state, announce, clear any previous timeout for the button, and
schedule the reset with the validated per-widget duration. -/
def handleLoadingClick (s : SysSt) (b : Nat) : SysSt :=
  match findW s.widgets b with
  | none => s
  | some w =>
    if w.loadingClass then s
    else
      let dur := parseDuration w.loadingDurationAttr loadingDurationDefault
      let snap : Snapshot := ⟨w.innerHTML, w.disabled⟩
      let ws := updW s.widgets b (fun v => { v with loadingClass := true, busy := some "true", disabled := true })
      let pend1 := clearTimeoutOpt s.pending (alookup s.timeouts b)
      { s with
        widgets := ws,
        snapshots := aset s.snapshots b snap,
        pending := pend1 ++ [⟨s.nextTid, b, TKind.loading, none, dur⟩],
        timeouts := aset s.timeouts b s.nextTid,
        announcements := s.announcements ++ [i18nLoading],
        nextTid := s.nextTid + 1 }

/-- `_handleAutoDisable(button)` from script.js: clear any previous timeout,
disable the button, and schedule re-enabling. -/
def handleAutoDisable (s : SysSt) (b : Nat) : SysSt :=
  match findW s.widgets b with
  | none => s
  | some w =>
    let dur := parseDuration w.disableDurationAttr disableDurationDefault
    let pend1 := clearTimeoutOpt s.pending (alookup s.timeouts b)
    let ws := updW s.widgets b (fun v => { v with disabled := true, ariaDisabled := some "true" })
    { s with
      widgets := ws,
      pending := pend1 ++ [⟨s.nextTid, b, TKind.autoDisable, none, dur⟩],
      timeouts := aset s.timeouts b s.nextTid,
      nextTid := s.nextTid + 1 }

/-- The public `setLoading(button, duration)`.  A handle of `none` models an
argument that is not an HTMLElement: the returned promise is rejected with
a TypeError and nothing else happens.  Otherwise the promise id is
allocated, the snapshot stored, any previous timeout cleared, the loading
state applied, and a timer carrying the promise id scheduled; states are
well formed when every `some` handle denotes a widget of the tree. -/
def setLoadingStep (s : SysSt) (button : Option Nat) (duration : Int) : SysSt :=
  match button with
  | none => { s with rejectedP := s.rejectedP ++ [s.nextPid], nextPid := s.nextPid + 1 }
  | some b =>
    match findW s.widgets b with
    | none => s
    | some w =>
      let validDuration := clamp duration minDuration maxDuration
      let snap : Snapshot := ⟨w.innerHTML, w.disabled⟩
      let pend1 := clearTimeoutOpt s.pending (alookup s.timeouts b)
      let ws := updW s.widgets b (fun v => { v with loadingClass := true, busy := some "true", disabled := true })
      { s with
        widgets := ws,
        snapshots := aset s.snapshots b snap,
        pending := pend1 ++ [⟨s.nextTid, b, TKind.loading, some s.nextPid, validDuration⟩],
        timeouts := aset s.timeouts b s.nextTid,
        announcements := s.announcements ++ [i18nLoading],
        nextTid := s.nextTid + 1,
        nextPid := s.nextPid + 1 }

/-- Expiry of a scheduled timeout: the spent timer is removed, then its
callback runs.  A loading callback resets the widget when it is still
connected and otherwise only discards the WeakMap entries, then resolves
its promise when one is attached (the `resolve()` after the branch in
`setLoading`).  An auto-disable callback re-enables the widget when
connected and always drops the timeout entry. -/
def fireTimer (s : SysSt) (i : Nat) : SysSt :=
  match s.pending.find? (fun t => t.tid == i) with
  | none => s
  | some t =>
    let s1 := { s with pending := s.pending.filter (fun u => u.tid != i) }
    match t.kind with
    | TKind.loading =>
      let s2 :=
        if connectedW s1.widgets t.widget then resetLoadingState s1 t.widget
        else { s1 with
          snapshots := adel s1.snapshots t.widget,
          timeouts := adel s1.timeouts t.widget }
      match t.promiseId with
      | some pid => { s2 with resolvedP := s2.resolvedP ++ [pid] }
      | none => s2
    | TKind.autoDisable =>
      let s2 :=
        if connectedW s1.widgets t.widget then
          { s1 with widgets := updW s1.widgets t.widget (fun w => { w with disabled := false, ariaDisabled := none }) }
        else s1
      { s2 with timeouts := adel s2.timeouts t.widget }

/-- The public `cancelLoading(button)`: no-op on a falsy handle; otherwise
clear the pending timeout (without settling any promise) and run the same
connected/detached branching as natural expiry. -/
def cancelLoading (s : SysSt) (button : Option Nat) : SysSt :=
  match button with
  | none => s
  | some b =>
    let s1 := { s with pending := clearTimeoutOpt s.pending (alookup s.timeouts b) }
    if connectedW s1.widgets b then resetLoadingState s1 b
    else { s1 with
      snapshots := adel s1.snapshots b,
      timeouts := adel s1.timeouts b }

/-- Number of `loadingComplete` events dispatched on widget `b`. -/
def loadingCompleteCount (b : Nat) (evs : List DEvent) : Nat :=
  (evs.filter (fun e => e.name == "loadingComplete" && e.target == b)).length

/- ======================================================================
   AnnouncementChannel: the live region and _announce
   ====================================================================== -/

/-- The state of the live region: whether `_liveRegion` is non-null and
connected, its text content, and the pending `setTimeout` callbacks as
(fire time, message) pairs in scheduling order. -/
structure AnnSt where
  regionPresent : Bool
  regionConnected : Bool
  text : String
  pendingMsgs : List (Nat × String)
  deriving DecidableEq

/-- `_announce(message)` called at time `now`: bail out when the region is
null, otherwise clear the text immediately and schedule setting the new
text `announceDelayMs` later.  The pending timer of an earlier call is not
cleared or restarted. -/
def announce (s : AnnSt) (now : Nat) (message : String) : AnnSt :=
  if !s.regionPresent then s
  else { s with text := "", pendingMsgs := s.pendingMsgs ++ [(now + announceDelayMs, message)] }

/-- One announcement timer firing: set the text when the region is still
present and connected. -/
def fireAnnounce (s : AnnSt) (m : String) : AnnSt :=
  if s.regionPresent && s.regionConnected then { s with text := m } else s

/-- Let every pending announcement timer fire.  Timers fire in fire-time
order with first-in-first-out ties; because every timer uses the same fixed
delay and calls happen in nondecreasing time order, that is exactly the
scheduling order of the list. -/
def runAnnouncements (s : AnnSt) : AnnSt :=
  s.pendingMsgs.foldl (fun acc p => fireAnnounce acc p.2) { s with pendingMsgs := [] }

/- ======================================================================
   Helper lemmas about the list and association-list primitives
   ====================================================================== -/

theorem find?_append_of_none {α : Type} (l1 l2 : List α) (p : α → Bool)
    (h : ∀ x ∈ l1, p x = false) : (l1 ++ l2).find? p = l2.find? p := by
  induction l1 with
  | nil => rfl
  | cons a t ih =>
    simp only [List.cons_append, List.find?]
    rw [h a (by simp)]
    exact ih (fun x hx => h x (by simp [hx]))

theorem find?_filter_ne {α : Type} (l : List (Nat × α)) (k : Nat) :
    (l.filter (fun p => p.1 != k)).find? (fun p => p.1 == k) = none := by
  induction l with
  | nil => rfl
  | cons a t ih =>
    by_cases h : a.1 = k
    · simp [List.filter_cons, h, ih]
    · simp [List.filter_cons, h, List.find?, ih]

theorem alookup_adel_self {α : Type} (l : List (Nat × α)) (k : Nat) :
    alookup (adel l k) k = none := by
  simp [alookup, adel, find?_filter_ne]

theorem alookup_aset_self {α : Type} (l : List (Nat × α)) (k : Nat) (v : α) :
    alookup (aset l k v) k = some v := by
  unfold alookup aset
  rw [find?_append_of_none]
  · simp
  · intro x hx
    have := List.of_mem_filter hx
    simpa using this

theorem findW_updW_self (ws : List Widget) (i : Nat) (f : Widget → Widget) (w : Widget)
    (hf : ∀ v, (f v).wid = v.wid) (h : findW ws i = some w) :
    findW (updW ws i f) i = some (f w) := by
  induction ws with
  | nil => simp [findW] at h
  | cons a t ih =>
    by_cases ha : a.wid = i
    · unfold findW at h
      rw [List.find?_cons_of_pos _ (by simp [ha])] at h
      injection h with h
      subst h
      unfold findW updW
      simp only [List.map_cons, if_pos ha]
      rw [List.find?_cons_of_pos _ (by simp [hf, ha])]
    · unfold findW at h
      rw [List.find?_cons_of_neg _ (by simp [ha])] at h
      unfold findW updW at ih ⊢
      simp only [List.map_cons, if_neg ha]
      rw [List.find?_cons_of_neg _ (by simp [ha])]
      exact ih h

theorem mem_clearTimeoutOpt (pend : List Timer) (t : Option Nat) (u : Timer)
    (h : u ∈ clearTimeoutOpt pend t) : u ∈ pend := by
  cases t with
  | none => exact h
  | some i => exact List.mem_of_mem_filter h

/- ======================================================================
   Lemmas about the duration parser
   ====================================================================== -/

theorem digit_not_space (c : Char) (h : isDigitChar c = true) : isJsSpace c = false := by
  simp only [isDigitChar, Bool.and_eq_true, decide_eq_true_eq] at h
  simp only [isJsSpace, Bool.or_eq_false_iff, Bool.and_eq_false_iff,
    decide_eq_false_iff_not, not_le, beq_eq_false_iff_ne, ne_eq]
  omega

theorem digit_not_sign (c : Char) (h : isDigitChar c = true) :
    (c == '-') = false ∧ (c == '+') = false := by
  constructor <;>
  · rw [beq_eq_false_iff_ne]
    rintro rfl
    exact absurd h (by decide)

theorem takeWhile_of_all {p : Char → Bool} (l : List Char) (h : l.all p = true) :
    l.takeWhile p = l :=
  List.takeWhile_eq_self_iff.mpr (by simpa [List.all_eq_true] using h)

theorem jsParseInt_digits (s : String) (h1 : s.toList ≠ [])
    (h2 : s.toList.all isDigitChar = true) :
    jsParseInt10 s = some ((digitsToNat s.toList : Nat) : Int) := by
  unfold jsParseInt10 jsParseIntChars
  cases hs : s.toList with
  | nil => exact absurd hs h1
  | cons c t =>
    rw [hs] at h2
    have hc : isDigitChar c = true := by
      simp only [List.all_cons, Bool.and_eq_true] at h2
      exact h2.1
    have hdrop : (c :: t).dropWhile isJsSpace = c :: t := by
      simp [List.dropWhile, digit_not_space c hc]
    rw [hdrop]
    have hsign := digit_not_sign c hc
    simp only [hsign.1, hsign.2, if_false, Bool.false_eq_true]
    have htake : (c :: t).takeWhile isDigitChar = c :: t := takeWhile_of_all _ h2
    simp [leadingDigits, htake]

/-- C6: the duration parser returns the default when the attribute is
missing (absent or empty), parses to NaN (non-numeric), or parses negative;
on a string of decimal digits (a non-negative integer) it returns the
parsed value clamped into [minDuration, maxDuration].  The function is
total, so it never throws. -/
theorem c6_parse_duration_policy :
    (∀ d : Int, parseDuration none d = d ∧ parseDuration (some "") d = d) ∧
    (∀ (s : String) (d : Int), jsParseInt10 s = none → parseDuration (some s) d = d) ∧
    (∀ (s : String) (d p : Int), jsParseInt10 s = some p → p < 0 →
      parseDuration (some s) d = d) ∧
    (∀ (s : String) (d : Int), s.toList ≠ [] → s.toList.all isDigitChar = true →
      parseDuration (some s) d = clamp ((digitsToNat s.toList : Nat) : Int) minDuration maxDuration) := by
  refine ⟨fun d => ⟨rfl, rfl⟩, fun s d h => ?_, fun s d p h hneg => ?_, fun s d h1 h2 => ?_⟩
  · by_cases hs : s = "" <;> simp [parseDuration, hs, h]
  · by_cases hs : s = "" <;> simp [parseDuration, hs, h, hneg]
  · have hne : s ≠ "" := by
      intro hs
      rw [hs] at h1
      exact h1 rfl
    have hp := jsParseInt_digits s h1 h2
    have hnonneg : ¬ (((digitsToNat s.toList : Nat) : Int) < 0) := by
      simp
    simp [parseDuration, hne, hp, hnonneg]

/-- Witness for C6 at the inputs "abc" (non-numeric), "-5" (negative) and
"250" (a non-negative integer). -/
theorem c6_parse_duration_policy_witness :
    parseDuration (some "abc") 2000 = 2000 ∧
    parseDuration (some "-5") 2000 = 2000 ∧
    parseDuration (some "250") 2000 = clamp ((digitsToNat "250".toList : Nat) : Int) minDuration maxDuration :=
  ⟨c6_parse_duration_policy.2.1 "abc" 2000 (by decide),
   c6_parse_duration_policy.2.2.1 "-5" 2000 (-5) (by decide) (by decide),
   c6_parse_duration_policy.2.2.2 "250" 2000 (by decide) (by decide)⟩

/- ======================================================================
   ToggleController theorems (C1, C7, C8)
   ====================================================================== -/

theorem attrTrue_boolStr (c : Bool) : attrTrue (some (boolStr c)) = c := by
  cases c <;> rfl

theorem valid_group_name_ne_empty (g : String) (h : isValidGroupName g = true) : g ≠ "" := by
  rintro rfl
  exact absurd h (by decide)

/-- C1: for a valid group name, toggling a connected member presses exactly
that member: every member of the group is pressed precisely when it is the
toggled widget, and in particular no two members are pressed at once. -/
theorem c1_toggle_group_exclusive (ws : List Widget) (b : Widget) (g : String)
    (hfind : findW ws b.wid = some b)
    (hg : b.toggleGroupAttr = some g)
    (hconn : b.connected = true)
    (hvalid : isValidGroupName g = true) :
    mutualExclusion g b.wid (handleToggle ws b.wid).1 = true ∧
    activePressed g b.wid (handleToggle ws b.wid).1 = true := by
  have hgne : g ≠ "" := valid_group_name_ne_empty g hvalid
  have hred : (handleToggle ws b.wid).1 =
      updW (ws.map (fun w =>
        if memberB g w && w.wid != b.wid then
          { w with pressed := some "false", selectedClass := false }
        else w)) b.wid
        (fun w => { w with pressed := some "true", selectedClass := true }) := by
    simp [handleToggle, hfind, hg, hgne, hvalid]
  rw [hred]
  constructor
  · rw [mutualExclusion, List.all_eq_true]
    intro w hw
    obtain ⟨v, hv, hF⟩ := List.mem_map.mp hw
    obtain ⟨u, hu, hF1⟩ := List.mem_map.mp hv
    by_cases hvb : v.wid = b.wid
    · subst hF
      simp only [if_pos hvb]
      simp [memberB, attrTrue, hvb]
    · subst hF
      simp only [if_neg hvb]
      by_cases hc : (memberB g u && u.wid != b.wid) = true
      · rw [if_pos hc] at hF1
        subst hF1
        simp only [Bool.and_eq_true, bne_iff_ne, ne_eq] at hc
        simp [attrTrue, hc.2]
      · rw [if_neg hc] at hF1
        subst hF1
        have hmem : memberB g u = false := by
          by_contra hmem2
          rw [Bool.not_eq_false] at hmem2
          exact hc (by simp [hmem2, bne_iff_ne, hvb])
        simp [hmem]
  · rw [activePressed, List.any_eq_true]
    have hb : b ∈ ws := List.mem_of_find?_eq_some hfind
    refine ⟨{ b with pressed := some "true", selectedClass := true }, ?_, ?_⟩
    · rw [updW]
      have hb1 : b ∈ ws.map (fun w =>
          if memberB g w && w.wid != b.wid then
            { w with pressed := some "false", selectedClass := false }
          else w) := by
        have := List.mem_map_of_mem (fun w =>
          if memberB g w && w.wid != b.wid then
            { w with pressed := some "false", selectedClass := false }
          else w) hb
        simpa using this
      have := List.mem_map_of_mem (fun w =>
        if w.wid = b.wid then { w with pressed := some "true", selectedClass := true } else w) hb1
      simpa using this
    · simp [memberB, attrTrue, hconn, hg]

/-- Witness for C1: the spec scenario, group "size" with members A, B, C
where B starts pressed, after toggling A. -/
theorem c1_toggle_group_exclusive_witness :
    mutualExclusion "size" 0 (handleToggle
      [⟨0, true, some "false", false, some "size", false, none, false, none, "A", none, none⟩,
       ⟨1, true, some "true", true, some "size", false, none, false, none, "B", none, none⟩,
       ⟨2, true, some "false", false, some "size", false, none, false, none, "C", none, none⟩] 0).1 = true ∧
    activePressed "size" 0 (handleToggle
      [⟨0, true, some "false", false, some "size", false, none, false, none, "A", none, none⟩,
       ⟨1, true, some "true", true, some "size", false, none, false, none, "B", none, none⟩,
       ⟨2, true, some "false", false, some "size", false, none, false, none, "C", none, none⟩] 0).1 = true :=
  c1_toggle_group_exclusive
    [⟨0, true, some "false", false, some "size", false, none, false, none, "A", none, none⟩,
     ⟨1, true, some "true", true, some "size", false, none, false, none, "B", none, none⟩,
     ⟨2, true, some "false", false, some "size", false, none, false, none, "C", none, none⟩]
    ⟨0, true, some "false", false, some "size", false, none, false, none, "A", none, none⟩
    "size" (by decide) (by decide) (by decide) (by decide)

/-- C7 counterexample: the empty group name fails the identifier whitelist,
yet the toggle operation on a widget carrying `data-toggle-group=""` is not
a no-op — the empty attribute is falsy in `if (toggleGroup)`, so the code
takes the ungrouped branch, flips aria-pressed and emits a toggle event. -/
theorem c7_empty_group_name_not_noop :
    isValidGroupName "" = false ∧
    (handleToggle [⟨0, true, some "false", false, some "", false, none, false, none, "E", none, none⟩] 0).1 =
      [⟨0, true, some "true", true, some "", false, none, false, none, "E", none, none⟩] ∧
    (handleToggle [⟨0, true, some "false", false, some "", false, none, false, none, "E", none, none⟩] 0).2 =
      [⟨0, "toggle", some true⟩] := by
  decide

/-- C7 (amended): for every nonempty group name failing the whitelist, the
toggle operation on a widget carrying it is a complete no-op, and for every
name failing the whitelist (the empty one included) setGroupValue is a
complete no-op: no widget changes and no event is dispatched. -/
theorem c7_invalid_group_name_noop (ws : List Widget) (bid : Nat) (b : Widget) (g : String)
    (hfind : findW ws bid = some b)
    (hg : b.toggleGroupAttr = some g)
    (hne : g ≠ "")
    (hinvalid : isValidGroupName g = false) :
    handleToggle ws bid = (ws, []) ∧
    (∀ active : Option Nat, setGroupValue ws g active = (ws, [])) ∧
    (∀ (ws2 : List Widget) (active : Option Nat), setGroupValue ws2 "" active = (ws2, [])) := by
  refine ⟨?_, fun active => ?_, fun ws2 active => ?_⟩
  · simp [handleToggle, hfind, hg, hne, hinvalid]
  · simp [setGroupValue, hinvalid]
  · have hempty : isValidGroupName "" = false := by decide
    simp [setGroupValue, hempty]

/-- Witness for C7 (amended) at the spec scenario name "a b". -/
theorem c7_invalid_group_name_noop_witness :
    handleToggle [⟨0, true, some "false", false, some "a b", false, none, false, none, "W", none, none⟩] 0 =
      ([⟨0, true, some "false", false, some "a b", false, none, false, none, "W", none, none⟩], []) ∧
    setGroupValue [⟨0, true, some "false", false, some "a b", false, none, false, none, "W", none, none⟩]
      "a b" (some 0) =
      ([⟨0, true, some "false", false, some "a b", false, none, false, none, "W", none, none⟩], []) := by
  have h := c7_invalid_group_name_noop
    [⟨0, true, some "false", false, some "a b", false, none, false, none, "W", none, none⟩] 0
    ⟨0, true, some "false", false, some "a b", false, none, false, none, "W", none, none⟩
    "a b" (by decide) (by decide) (by decide) (by decide)
  exact ⟨h.1, h.2.1 (some 0)⟩

/-- C8 counterexample: with the valid group name "size" whose sole member
(widget 1) is pressed, calling setGroupValue with a widget that is not a
member of the group (widget 2, which carries no group attribute) leaves no
member of the group pressed, not exactly one. -/
theorem c8_set_group_value_nonmember :
    isValidGroupName "size" = true ∧
    pressedCount "size" (setGroupValue
      [⟨1, true, some "true", true, some "size", false, none, false, none, "B", none, none⟩,
       ⟨2, true, some "false", false, none, false, none, false, none, "N", none, none⟩]
      "size" (some 2)).1 = 0 := by
  decide

/-- C8 (amended): for a valid group name, setGroupValue presses every
member exactly when it is the designated widget; when the designated widget
is a connected member of the group, exactly that member ends up pressed,
and when it is not a member, no member ends up pressed (first conjunct). -/
theorem c8_set_group_value_exclusive (ws : List Widget) (g : String) (a : Nat)
    (hvalid : isValidGroupName g = true) :
    mutualExclusion g a (setGroupValue ws g (some a)).1 = true ∧
    (ws.any (fun w => memberB g w && w.wid == a) = true →
      activePressed g a (setGroupValue ws g (some a)).1 = true) := by
  have hred : (setGroupValue ws g (some a)).1 =
      ws.map (fun w =>
        if memberB g w then
          { w with pressed := some (boolStr (some w.wid == some a)), selectedClass := some w.wid == some a }
        else w) := by
    simp [setGroupValue, hvalid]
  rw [hred]
  constructor
  · rw [mutualExclusion, List.all_eq_true]
    intro w hw
    obtain ⟨u, hu, hF⟩ := List.mem_map.mp hw
    by_cases hm : memberB g u = true
    · rw [if_pos hm] at hF
      subst hF
      simp [attrTrue_boolStr]
    · rw [if_neg hm] at hF
      subst hF
      simp [Bool.not_eq_true] at hm
      simp [hm]
  · intro hex
    rw [List.any_eq_true] at hex
    obtain ⟨u, hu, hprop⟩ := hex
    rw [Bool.and_eq_true, beq_iff_eq] at hprop
    obtain ⟨hm, ha⟩ := hprop
    rw [activePressed]
    refine List.any_eq_true.mpr ⟨_, List.mem_map_of_mem (fun w =>
      if memberB g w then
        { w with pressed := some (boolStr (some w.wid == some a)), selectedClass := some w.wid == some a }
      else w) hu, ?_⟩
    rw [if_pos hm]
    simp only [memberB] at hm ⊢
    simp [hm, ha, attrTrue_boolStr]

/-- Witness for C8 (amended): group "size" with members 0 (unpressed) and
1 (pressed); setGroupValue to member 0. -/
theorem c8_set_group_value_exclusive_witness :
    mutualExclusion "size" 0 (setGroupValue
      [⟨0, true, some "false", false, some "size", false, none, false, none, "A", none, none⟩,
       ⟨1, true, some "true", true, some "size", false, none, false, none, "B", none, none⟩]
      "size" (some 0)).1 = true ∧
    activePressed "size" 0 (setGroupValue
      [⟨0, true, some "false", false, some "size", false, none, false, none, "A", none, none⟩,
       ⟨1, true, some "true", true, some "size", false, none, false, none, "B", none, none⟩]
      "size" (some 0)).1 = true := by
  have h := c8_set_group_value_exclusive
    [⟨0, true, some "false", false, some "size", false, none, false, none, "A", none, none⟩,
     ⟨1, true, some "true", true, some "size", false, none, false, none, "B", none, none⟩]
    "size" 0 (by decide)
  exact ⟨h.1, h.2 (by decide)⟩

/- ======================================================================
   DropdownController theorems (C2)
   ====================================================================== -/

theorem closeAllLoop_closes (l : List Nat) (s : DropState)
    (h : ∀ d ∈ s.dropdowns, d.connected = true → d.containerExpanded = true → d.did ∈ l) :
    ∀ d ∈ (closeAllLoop s l).dropdowns, d.connected = true → d.containerExpanded = false := by
  induction l generalizing s with
  | nil =>
    intro d hd hc
    by_contra hexp
    rw [Bool.not_eq_false] at hexp
    exact absurd (h d hd hc hexp) (List.not_mem_nil _)
  | cons i rest ih =>
    show ∀ d ∈ (closeAllLoop (if connectedAt s.dropdowns i then closeDropdown s i else s) rest).dropdowns, _
    apply ih
    intro d hd hc he
    by_cases hca : connectedAt s.dropdowns i = true
    · rw [if_pos hca] at hd
      obtain ⟨v, hv, hF⟩ := List.mem_map.mp hd
      by_cases hvi : v.did = i
      · rw [if_pos hvi] at hF
        subst hF
        simp [closeW] at he
      · rw [if_neg hvi] at hF
        subst hF
        rcases List.mem_cons.mp (h v hv hc he) with h1 | h1
        · exact absurd h1 hvi
        · exact h1
    · rw [if_neg hca] at hd
      rcases List.mem_cons.mp (h d hd hc he) with h1 | h1
      · exact absurd (List.any_eq_true.mpr ⟨d, hd, by simp [h1, hc]⟩) hca
      · exact h1

theorem closeAllDropdowns_closes (s : DropState) (htrack : openTracked s = true) :
    ∀ d ∈ (closeAllDropdowns s).dropdowns, d.connected = true → d.containerExpanded = false := by
  have hp : ∀ d ∈ s.dropdowns, d.connected = true → d.containerExpanded = true →
      d.did ∈ s.openSet := by
    rw [openTracked, List.all_eq_true] at htrack
    intro d hd hc he
    have := htrack d hd
    rw [hc, he] at this
    simpa using this
  intro d hd
  exact closeAllLoop_closes s.openSet s hp d hd

theorem openDropdownPriv_onlyOpen (s : DropState) (i : Nat)
    (h : ∀ d ∈ s.dropdowns, d.connected = true → d.containerExpanded = false) :
    onlyOpen i (openDropdownPriv s i) = true := by
  rw [onlyOpen, List.all_eq_true]
  intro d hd
  obtain ⟨v, hv, hF⟩ := List.mem_map.mp hd
  by_cases hvi : v.did = i
  · rw [if_pos hvi] at hF
    subst hF
    simp [openW, hvi]
  · rw [if_neg hvi] at hF
    subst hF
    by_cases hc : v.connected = true
    · simp [h v hv hc]
    · rw [Bool.not_eq_true] at hc
      simp [hc]

theorem all_closed_onlyOpen (i : Nat) (s : DropState)
    (h : ∀ d ∈ s.dropdowns, d.connected = true → d.containerExpanded = false) :
    onlyOpen i s = true := by
  rw [onlyOpen, List.all_eq_true]
  intro d hd
  by_cases hc : d.connected = true
  · simp [h d hd hc]
  · rw [Bool.not_eq_true] at hc
    simp [hc]

/-- C2 counterexample: dropdown 0 is open (and tracked) and dropdown 1 is
closed; pressing ArrowDown inside dropdown 1 opens it via `_openDropdown`
without first closing the others, leaving two dropdowns open — the
single-open claim fails on the keyboard open path. -/
theorem c2_arrow_down_two_open :
    openCount ⟨[⟨0, true, true, true, true, true, none⟩,
                ⟨1, true, true, true, false, false, none⟩], [0]⟩ = 1 ∧
    openCount (handleDropdownArrowDown
      ⟨[⟨0, true, true, true, true, true, none⟩,
        ⟨1, true, true, true, false, false, none⟩], [0]⟩ 1) = 2 := by
  decide

/-- C2 (amended): when every connected expanded dropdown is tracked in the
open set, opening dropdown `i` via a trigger click or via the public
openDropdown operation first closes every other open dropdown, so that
afterwards every connected expanded dropdown is `i` itself (at most one is
open).  The ArrowDown keyboard path does not close the others. -/
theorem c2_open_single_click_and_public (s : DropState) (i : Nat) (d : Dropdown)
    (htrack : openTracked s = true)
    (hfd : findD s.dropdowns i = some d)
    (ht : d.hasTrigger = true)
    (hm : d.hasMenu = true) :
    onlyOpen i (handleDropdownTriggerClick s i) = true ∧
    onlyOpen i (openDropdownPublic s i) = true := by
  have hclosed := closeAllDropdowns_closes s htrack
  constructor
  · rw [handleDropdownTriggerClick, hfd]
    simp only [ht, hm, Bool.and_self, if_true]
    by_cases hexp : d.triggerExpanded = true
    · simp only [hexp, Bool.not_true, Bool.false_eq_true, if_false]
      exact all_closed_onlyOpen i _ hclosed
    · rw [Bool.not_eq_true] at hexp
      simp only [hexp, Bool.not_false, if_true]
      exact openDropdownPriv_onlyOpen _ i hclosed
  · rw [openDropdownPublic, hfd]
    simp only [ht, hm, Bool.and_self, if_true]
    exact openDropdownPriv_onlyOpen _ i hclosed

/-- Witness for C2 (amended): dropdown 0 open and tracked, dropdown 1
closed; opening dropdown 1 by click and by the public operation. -/
theorem c2_open_single_click_and_public_witness :
    onlyOpen 1 (handleDropdownTriggerClick
      ⟨[⟨0, true, true, true, true, true, none⟩,
        ⟨1, true, true, true, false, false, none⟩], [0]⟩ 1) = true ∧
    onlyOpen 1 (openDropdownPublic
      ⟨[⟨0, true, true, true, true, true, none⟩,
        ⟨1, true, true, true, false, false, none⟩], [0]⟩ 1) = true :=
  c2_open_single_click_and_public
    ⟨[⟨0, true, true, true, true, true, none⟩,
      ⟨1, true, true, true, false, false, none⟩], [0]⟩ 1
    ⟨1, true, true, true, false, false, none⟩
    (by decide) (by decide) (by decide) (by decide)

/- ======================================================================
   TransientStateManager theorems (C3, C4, C5, C10)
   ====================================================================== -/

theorem resetLoadingState_pending (s : SysSt) (b : Nat) :
    (resetLoadingState s b).pending = s.pending := rfl

theorem resetLoadingState_resolvedP (s : SysSt) (b : Nat) :
    (resetLoadingState s b).resolvedP = s.resolvedP := rfl

theorem resetLoadingState_rejectedP (s : SysSt) (b : Nat) :
    (resetLoadingState s b).rejectedP = s.rejectedP := rfl

theorem resetLoadingState_events (s : SysSt) (b : Nat) :
    (resetLoadingState s b).events = s.events ++ [⟨b, "loadingComplete", none⟩] := rfl

theorem loadingCompleteCount_append (b : Nat) (l1 l2 : List DEvent) :
    loadingCompleteCount b (l1 ++ l2) = loadingCompleteCount b l1 + loadingCompleteCount b l2 := by
  simp [loadingCompleteCount, List.filter_append]

theorem find_new_timer (pend1 : List Timer) (t : Timer) (n : Nat) (ht : t.tid = n)
    (h : ∀ u ∈ pend1, u.tid ≠ n) :
    (pend1 ++ [t]).find? (fun u => u.tid == n) = some t := by
  rw [find?_append_of_none]
  · simp [List.find?, ht]
  · intro u hu
    simpa using h u hu

/-- C5: when the widget of a pending timer has been removed from the tree,
both natural expiry and explicit cancellation mutate no widget, emit no
event and no announcement, and only discard the timeout (and, for a loading
timer, the snapshot) bookkeeping for that widget.  All the operations are
total Lean functions, so no path can throw. -/
theorem c5_detached_timer_cleanup (s : SysSt) (t : Timer) (w : Widget)
    (hfind : s.pending.find? (fun u => u.tid == t.tid) = some t)
    (hw : findW s.widgets t.widget = some w)
    (hdet : w.connected = false) :
    (fireTimer s t.tid).widgets = s.widgets ∧
    (fireTimer s t.tid).events = s.events ∧
    (fireTimer s t.tid).announcements = s.announcements ∧
    alookup (fireTimer s t.tid).timeouts t.widget = none ∧
    (t.kind = TKind.loading → alookup (fireTimer s t.tid).snapshots t.widget = none) ∧
    (cancelLoading s (some t.widget)).widgets = s.widgets ∧
    (cancelLoading s (some t.widget)).events = s.events ∧
    (cancelLoading s (some t.widget)).announcements = s.announcements ∧
    alookup (cancelLoading s (some t.widget)).timeouts t.widget = none ∧
    alookup (cancelLoading s (some t.widget)).snapshots t.widget = none := by
  obtain ⟨tid, tw, tk, tp, td⟩ := t
  dsimp only at hfind hw ⊢
  have hcw : connectedW s.widgets tw = false := by
    simp [connectedW, hw, hdet]
  cases tk with
  | loading =>
    cases tp with
    | none =>
      simp [fireTimer, hfind, hcw, cancelLoading, alookup_adel_self]
    | some pid =>
      simp [fireTimer, hfind, hcw, cancelLoading, alookup_adel_self]
  | autoDisable =>
    simp [fireTimer, hfind, hcw, cancelLoading, alookup_adel_self]

/-- Witness for C5: a detached widget with a pending loading timer and a
stored snapshot. -/
theorem c5_detached_timer_cleanup_witness :
    (fireTimer
      ⟨[⟨0, false, none, false, none, true, some "true", true, none, "D", none, none⟩],
       [(0, 1)], [(0, ⟨"orig", false⟩)], [⟨1, 0, TKind.loading, none, 2000⟩], [], [], [], [], 2, 0⟩ 1).widgets =
      [⟨0, false, none, false, none, true, some "true", true, none, "D", none, none⟩] ∧
    (fireTimer
      ⟨[⟨0, false, none, false, none, true, some "true", true, none, "D", none, none⟩],
       [(0, 1)], [(0, ⟨"orig", false⟩)], [⟨1, 0, TKind.loading, none, 2000⟩], [], [], [], [], 2, 0⟩ 1).events = [] ∧
    alookup (fireTimer
      ⟨[⟨0, false, none, false, none, true, some "true", true, none, "D", none, none⟩],
       [(0, 1)], [(0, ⟨"orig", false⟩)], [⟨1, 0, TKind.loading, none, 2000⟩], [], [], [], [], 2, 0⟩ 1).snapshots 0 = none := by
  have h := c5_detached_timer_cleanup
    ⟨[⟨0, false, none, false, none, true, some "true", true, none, "D", none, none⟩],
     [(0, 1)], [(0, ⟨"orig", false⟩)], [⟨1, 0, TKind.loading, none, 2000⟩], [], [], [], [], 2, 0⟩
    ⟨1, 0, TKind.loading, none, 2000⟩
    ⟨0, false, none, false, none, true, some "true", true, none, "D", none, none⟩
    (by decide) (by decide) (by decide)
  exact ⟨h.1, h.2.1, h.2.2.2.2.1 rfl⟩

/-- C10: on a connected widget with no stored snapshot and no pending
timeout — no loading session at all — the public cancelLoading is not a
no-op: it clears the loading class, sets aria-busy to "false", force-clears
the disabled flag, schedules the completion announcement, and dispatches a
loadingComplete event. -/
theorem c10_cancel_without_session_mutates (s : SysSt) (b : Nat) (w : Widget)
    (hw : findW s.widgets b = some w)
    (hconn : w.connected = true)
    (hsnap : alookup s.snapshots b = none)
    (htime : alookup s.timeouts b = none) :
    findW (cancelLoading s (some b)).widgets b =
      some { w with loadingClass := false, busy := some "false", disabled := false } ∧
    (cancelLoading s (some b)).events = s.events ++ [⟨b, "loadingComplete", none⟩] ∧
    (cancelLoading s (some b)).announcements = s.announcements ++ [i18nComplete] := by
  have hcw : connectedW s.widgets b = true := by
    simp [connectedW, hw, hconn]
  have hred : cancelLoading s (some b) =
      resetLoadingState { s with pending := clearTimeoutOpt s.pending (alookup s.timeouts b) } b := by
    simp [cancelLoading, hcw]
  rw [hred, htime]
  refine ⟨?_, rfl, rfl⟩
  rw [resetLoadingState]
  dsimp only
  rw [hsnap]
  dsimp only
  have h1 := findW_updW_self s.widgets b
    (fun v => { v with loadingClass := false, busy := some "false" }) w (fun v => rfl) hw
  have h2 := findW_updW_self _ b (fun v => { v with disabled := false }) _ (fun v => rfl) h1
  exact h2

/-- Witness for C10: a connected, disabled widget outside any loading
session. -/
theorem c10_cancel_without_session_mutates_witness :
    findW (cancelLoading
      ⟨[⟨0, true, none, false, none, false, none, true, none, "F", none, none⟩],
       [], [], [], [], [], [], [], 1, 0⟩ (some 0)).widgets 0 =
      some ⟨0, true, none, false, none, false, some "false", false, none, "F", none, none⟩ ∧
    (cancelLoading
      ⟨[⟨0, true, none, false, none, false, none, true, none, "F", none, none⟩],
       [], [], [], [], [], [], [], 1, 0⟩ (some 0)).events = [⟨0, "loadingComplete", none⟩] := by
  have h := c10_cancel_without_session_mutates
    ⟨[⟨0, true, none, false, none, false, none, true, none, "F", none, none⟩],
     [], [], [], [], [], [], [], 1, 0⟩ 0
    ⟨0, true, none, false, none, false, none, true, none, "F", none, none⟩
    (by decide) (by decide) (by decide) (by decide)
  exact ⟨h.1, h.2.1⟩

theorem fireTimer_loading_effects (s : SysSt) (t : Timer) (hk : t.kind = TKind.loading)
    (hfind : s.pending.find? (fun u => u.tid == t.tid) = some t) :
    (fireTimer s t.tid).resolvedP =
      (match t.promiseId with
        | some pid => s.resolvedP ++ [pid]
        | none => s.resolvedP) ∧
    (fireTimer s t.tid).rejectedP = s.rejectedP ∧
    (fireTimer s t.tid).pending = s.pending.filter (fun u => u.tid != t.tid) ∧
    (connectedW s.widgets t.widget = true →
      (fireTimer s t.tid).events = s.events ++ [⟨t.widget, "loadingComplete", none⟩]) := by
  obtain ⟨tid, tw, tk, tp, td⟩ := t
  dsimp only at hk hfind ⊢
  subst hk
  by_cases hc : connectedW s.widgets tw = true
  · cases tp <;>
      simp [fireTimer, hfind, hc, resetLoadingState_resolvedP, resetLoadingState_rejectedP,
        resetLoadingState_pending, resetLoadingState_events]
  · rw [Bool.not_eq_true] at hc
    cases tp <;> simp [fireTimer, hfind, hc]

theorem cancelLoading_promises (s : SysSt) (b : Nat) :
    (cancelLoading s (some b)).resolvedP = s.resolvedP ∧
    (cancelLoading s (some b)).rejectedP = s.rejectedP := by
  by_cases hc : connectedW s.widgets b = true
  · simp [cancelLoading, hc, resetLoadingState_resolvedP, resetLoadingState_rejectedP]
  · rw [Bool.not_eq_true] at hc
    simp [cancelLoading, hc]

theorem cancelLoading_connected_effects (s : SysSt) (b : Nat)
    (hc : connectedW s.widgets b = true) :
    (cancelLoading s (some b)).events = s.events ++ [⟨b, "loadingComplete", none⟩] ∧
    (cancelLoading s (some b)).pending = clearTimeoutOpt s.pending (alookup s.timeouts b) := by
  simp [cancelLoading, hc, resetLoadingState_events, resetLoadingState_pending]

/-- C3 counterexample: a valid connected widget is put into loading with
setLoading, then the session is ended by the explicit cancelLoading.  The
reset runs (one loadingComplete event, timer gone), but the promise is
neither resolved nor rejected — so the completion signal does not resolve
when the session ends via the explicit cancel operation. -/
theorem c3_cancel_does_not_resolve :
    loadingCompleteCount 0 (cancelLoading (setLoadingStep
      ⟨[⟨0, true, none, false, none, false, none, false, none, "L", none, none⟩],
       [], [], [], [], [], [], [], 1, 0⟩ (some 0) 500) (some 0)).events = 1 ∧
    (cancelLoading (setLoadingStep
      ⟨[⟨0, true, none, false, none, false, none, false, none, "L", none, none⟩],
       [], [], [], [], [], [], [], 1, 0⟩ (some 0) 500) (some 0)).pending = [] ∧
    (cancelLoading (setLoadingStep
      ⟨[⟨0, true, none, false, none, false, none, false, none, "L", none, none⟩],
       [], [], [], [], [], [], [], 1, 0⟩ (some 0) 500) (some 0)).resolvedP = [] ∧
    (cancelLoading (setLoadingStep
      ⟨[⟨0, true, none, false, none, false, none, false, none, "L", none, none⟩],
       [], [], [], [], [], [], [], 1, 0⟩ (some 0) 500) (some 0)).rejectedP = [] := by
  decide

/-- C3 (amended): setLoading rejects with a TypeError on an invalid handle
without touching the tree; on a valid handle its promise is resolved
exactly once, precisely when its own countdown timer fires (reset when
attached, cleanup when detached — the resolution is unconditional), and no
timer carrying the promise survives the firing; but when the countdown is
cancelled first by cancelLoading, the promise is never settled. -/
theorem c3_set_loading_promise (s : SysSt) (b : Nat) (w : Widget) (dur : Int)
    (hw : findW s.widgets b = some w)
    (hFresh : ∀ u ∈ s.pending, u.tid < s.nextTid)
    (hTP : ∀ u ∈ s.pending, u.promiseId ≠ some s.nextPid)
    (hPRes : s.nextPid ∉ s.resolvedP)
    (hPRej : s.nextPid ∉ s.rejectedP) :
    (∀ (s2 : SysSt) (d : Int),
      (setLoadingStep s2 none d).rejectedP = s2.rejectedP ++ [s2.nextPid] ∧
      (setLoadingStep s2 none d).widgets = s2.widgets ∧
      (setLoadingStep s2 none d).pending = s2.pending) ∧
    (fireTimer (setLoadingStep s (some b) dur) s.nextTid).resolvedP.count s.nextPid = 1 ∧
    (∀ u ∈ (fireTimer (setLoadingStep s (some b) dur) s.nextTid).pending,
      u.promiseId ≠ some s.nextPid) ∧
    s.nextPid ∉ (cancelLoading (setLoadingStep s (some b) dur) (some b)).resolvedP ∧
    s.nextPid ∉ (cancelLoading (setLoadingStep s (some b) dur) (some b)).rejectedP := by
  have hred : setLoadingStep s (some b) dur =
      { s with
        widgets := updW s.widgets b (fun v => { v with loadingClass := true, busy := some "true", disabled := true }),
        snapshots := aset s.snapshots b ⟨w.innerHTML, w.disabled⟩,
        pending := clearTimeoutOpt s.pending (alookup s.timeouts b) ++
          [⟨s.nextTid, b, TKind.loading, some s.nextPid, clamp dur minDuration maxDuration⟩],
        timeouts := aset s.timeouts b s.nextTid,
        announcements := s.announcements ++ [i18nLoading],
        nextTid := s.nextTid + 1,
        nextPid := s.nextPid + 1 } := by
    simp [setLoadingStep, hw]
  have hfindT : (setLoadingStep s (some b) dur).pending.find? (fun u => u.tid == s.nextTid) =
      some ⟨s.nextTid, b, TKind.loading, some s.nextPid, clamp dur minDuration maxDuration⟩ := by
    rw [hred]
    dsimp only
    refine find_new_timer _ _ _ ?_ ?_
    · rfl
    · intro u hu
      have := hFresh u (mem_clearTimeoutOpt _ _ u hu)
      omega
  have heff := fireTimer_loading_effects (setLoadingStep s (some b) dur)
    ⟨s.nextTid, b, TKind.loading, some s.nextPid, clamp dur minDuration maxDuration⟩ rfl hfindT
  refine ⟨fun s2 d => ⟨rfl, rfl, rfl⟩, ?_, ?_, ?_, ?_⟩
  · rw [heff.1]
    dsimp only
    rw [hred]
    dsimp only
    rw [List.count_append]
    rw [List.count_eq_zero.mpr hPRes]
    simp
  · intro u hu
    rw [heff.2.2.1] at hu
    have hmem := List.mem_of_mem_filter hu
    have hcond := List.of_mem_filter hu
    rw [hred] at hmem
    dsimp only at hmem hcond
    rcases List.mem_append.mp hmem with h1 | h1
    · exact hTP u (mem_clearTimeoutOpt _ _ u h1)
    · rcases List.mem_singleton.mp h1 with rfl
      dsimp only at hcond
      simp at hcond
  · rw [(cancelLoading_promises (setLoadingStep s (some b) dur) b).1, hred]
    exact hPRes
  · rw [(cancelLoading_promises (setLoadingStep s (some b) dur) b).2, hred]
    exact hPRej

/-- Witness for C3 (amended): one connected widget, fresh state. -/
theorem c3_set_loading_promise_witness :
    (fireTimer (setLoadingStep
      ⟨[⟨0, true, none, false, none, false, none, false, none, "L", none, none⟩],
       [], [], [], [], [], [], [], 1, 0⟩ (some 0) 500) 1).resolvedP.count 0 = 1 ∧
    0 ∉ (cancelLoading (setLoadingStep
      ⟨[⟨0, true, none, false, none, false, none, false, none, "L", none, none⟩],
       [], [], [], [], [], [], [], 1, 0⟩ (some 0) 500) (some 0)).resolvedP := by
  have h := c3_set_loading_promise
    ⟨[⟨0, true, none, false, none, false, none, false, none, "L", none, none⟩],
     [], [], [], [], [], [], [], 1, 0⟩ 0
    ⟨0, true, none, false, none, false, none, false, none, "L", none, none⟩
    500 (by decide) (by simp) (by simp) (by simp) (by simp)
  exact ⟨h.2.1, h.2.2.2.1⟩

/-- C4 counterexample: a session on widget 0 is started by a click and ends
by natural expiry, emitting one loadingComplete; a cancellation arriving
after that expiry runs the reset a second time and emits a second
loadingComplete — two events for one logical loading session. -/
theorem c4_second_loading_complete_after_expiry :
    loadingCompleteCount 0 (fireTimer (handleLoadingClick
      ⟨[⟨0, true, none, false, none, false, none, false, none, "L", none, none⟩],
       [], [], [], [], [], [], [], 1, 0⟩ 0) 1).events = 1 ∧
    loadingCompleteCount 0 (cancelLoading (fireTimer (handleLoadingClick
      ⟨[⟨0, true, none, false, none, false, none, false, none, "L", none, none⟩],
       [], [], [], [], [], [], [], 1, 0⟩ 0) 1) (some 0)).events = 2 := by
  decide

/-- C4 (amended): starting a second loading countdown via setLoading before
the first expires removes the first countdown's timer; a click-started
session that ends by natural expiry, or by a cancellation arriving before
expiry, emits exactly one loadingComplete and leaves no timer for the
widget; but a cancellation arriving after expiry emits an additional
loadingComplete (see the counterexample). -/
theorem c4_one_loading_complete_per_session (s : SysSt) (b : Nat) (w : Widget)
    (hw : findW s.widgets b = some w)
    (hnotloading : w.loadingClass = false)
    (hconn : w.connected = true)
    (hFresh : ∀ u ∈ s.pending, u.tid < s.nextTid)
    (hNoB : ∀ u ∈ s.pending, u.widget ≠ b)
    (hEv : loadingCompleteCount b s.events = 0) :
    (∀ dur1 dur2 : Int,
      ∀ u ∈ (setLoadingStep (setLoadingStep s (some b) dur1) (some b) dur2).pending,
        u.tid ≠ s.nextTid) ∧
    loadingCompleteCount b (fireTimer (handleLoadingClick s b) s.nextTid).events = 1 ∧
    (∀ u ∈ (fireTimer (handleLoadingClick s b) s.nextTid).pending, u.widget ≠ b) ∧
    loadingCompleteCount b (cancelLoading (handleLoadingClick s b) (some b)).events = 1 ∧
    (∀ u ∈ (cancelLoading (handleLoadingClick s b) (some b)).pending, u.widget ≠ b) := by
  have hclick : handleLoadingClick s b =
      { s with
        widgets := updW s.widgets b (fun v => { v with loadingClass := true, busy := some "true", disabled := true }),
        snapshots := aset s.snapshots b ⟨w.innerHTML, w.disabled⟩,
        pending := clearTimeoutOpt s.pending (alookup s.timeouts b) ++
          [⟨s.nextTid, b, TKind.loading, none, parseDuration w.loadingDurationAttr loadingDurationDefault⟩],
        timeouts := aset s.timeouts b s.nextTid,
        announcements := s.announcements ++ [i18nLoading],
        nextTid := s.nextTid + 1 } := by
    simp [handleLoadingClick, hw, hnotloading]
  have hw1 : findW (handleLoadingClick s b).widgets b =
      some { w with loadingClass := true, busy := some "true", disabled := true } := by
    rw [hclick]
    exact findW_updW_self s.widgets b _ w (fun v => rfl) hw
  have hconn1 : connectedW (handleLoadingClick s b).widgets b = true := by
    simp [connectedW, hw1, hconn]
  have hfindT : (handleLoadingClick s b).pending.find? (fun u => u.tid == s.nextTid) =
      some ⟨s.nextTid, b, TKind.loading, none, parseDuration w.loadingDurationAttr loadingDurationDefault⟩ := by
    rw [hclick]
    dsimp only
    refine find_new_timer _ _ _ ?_ ?_
    · rfl
    · intro u hu
      have := hFresh u (mem_clearTimeoutOpt _ _ u hu)
      omega
  have hlook1 : alookup (handleLoadingClick s b).timeouts b = some s.nextTid := by
    rw [hclick]
    exact alookup_aset_self _ _ _
  have heff := fireTimer_loading_effects (handleLoadingClick s b)
    ⟨s.nextTid, b, TKind.loading, none, parseDuration w.loadingDurationAttr loadingDurationDefault⟩ rfl hfindT
  refine ⟨?_, ?_, ?_, ?_, ?_⟩
  · intro dur1 dur2 u hu
    have hset1 : setLoadingStep s (some b) dur1 =
        { s with
          widgets := updW s.widgets b (fun v => { v with loadingClass := true, busy := some "true", disabled := true }),
          snapshots := aset s.snapshots b ⟨w.innerHTML, w.disabled⟩,
          pending := clearTimeoutOpt s.pending (alookup s.timeouts b) ++
            [⟨s.nextTid, b, TKind.loading, some s.nextPid, clamp dur1 minDuration maxDuration⟩],
          timeouts := aset s.timeouts b s.nextTid,
          announcements := s.announcements ++ [i18nLoading],
          nextTid := s.nextTid + 1,
          nextPid := s.nextPid + 1 } := by
      simp [setLoadingStep, hw]
    have hwX : findW (setLoadingStep s (some b) dur1).widgets b =
        some { w with loadingClass := true, busy := some "true", disabled := true } := by
      rw [hset1]
      exact findW_updW_self s.widgets b _ w (fun v => rfl) hw
    have hlookX : alookup (setLoadingStep s (some b) dur1).timeouts b = some s.nextTid := by
      rw [hset1]
      exact alookup_aset_self _ _ _
    have hset2 : (setLoadingStep (setLoadingStep s (some b) dur1) (some b) dur2).pending =
        clearTimeoutOpt (setLoadingStep s (some b) dur1).pending (some s.nextTid) ++
          [⟨(setLoadingStep s (some b) dur1).nextTid, b, TKind.loading,
            some (setLoadingStep s (some b) dur1).nextPid, clamp dur2 minDuration maxDuration⟩] := by
      rw [setLoadingStep]
      rw [hwX, hlookX]
    rw [hset2] at hu
    rcases List.mem_append.mp hu with h1 | h1
    · have := List.of_mem_filter h1
      simpa using this
    · rcases List.mem_singleton.mp h1 with rfl
      dsimp only
      rw [hset1]
      dsimp only
      omega
  · rw [heff.2.2.2 hconn1, hclick]
    dsimp only
    rw [loadingCompleteCount_append, hEv]
    simp [loadingCompleteCount]
  · intro u hu
    rw [heff.2.2.1] at hu
    have hmem := List.mem_of_mem_filter hu
    have hcond := List.of_mem_filter hu
    rw [hclick] at hmem
    dsimp only at hmem hcond
    rcases List.mem_append.mp hmem with h1 | h1
    · exact hNoB u (mem_clearTimeoutOpt _ _ u h1)
    · rcases List.mem_singleton.mp h1 with rfl
      simp at hcond
  · have hce := cancelLoading_connected_effects (handleLoadingClick s b) b hconn1
    rw [hce.1, hclick]
    dsimp only
    rw [loadingCompleteCount_append, hEv]
    simp [loadingCompleteCount]
  · intro u hu
    have hce := cancelLoading_connected_effects (handleLoadingClick s b) b hconn1
    rw [hce.2, hlook1] at hu
    have hmem := List.mem_of_mem_filter hu
    have hcond := List.of_mem_filter hu
    rw [hclick] at hmem
    dsimp only at hmem hcond
    rcases List.mem_append.mp hmem with h1 | h1
    · exact hNoB u (mem_clearTimeoutOpt _ _ u h1)
    · rcases List.mem_singleton.mp h1 with rfl
      simp at hcond

/-- Witness for C4 (amended): one connected widget, fresh state. -/
theorem c4_one_loading_complete_per_session_witness :
    loadingCompleteCount 0 (fireTimer (handleLoadingClick
      ⟨[⟨0, true, none, false, none, false, none, false, none, "L", none, none⟩],
       [], [], [], [], [], [], [], 1, 0⟩ 0) 1).events = 1 ∧
    loadingCompleteCount 0 (cancelLoading (handleLoadingClick
      ⟨[⟨0, true, none, false, none, false, none, false, none, "L", none, none⟩],
       [], [], [], [], [], [], [], 1, 0⟩ 0) (some 0)).events = 1 := by
  have h := c4_one_loading_complete_per_session
    ⟨[⟨0, true, none, false, none, false, none, false, none, "L", none, none⟩],
     [], [], [], [], [], [], [], 1, 0⟩ 0
    ⟨0, true, none, false, none, false, none, false, none, "L", none, none⟩
    (by decide) (by decide) (by decide) (by simp) (by simp) (by decide)
  exact ⟨h.2.1, h.2.2.2.1⟩

/- ======================================================================
   AnnouncementChannel theorems (C9)
   ====================================================================== -/

/-- C9: _announce clears the region text immediately and sets the message
only after the fixed delay; when a second call arrives before the first
call's delay elapses, the first call's pending timer is neither cleared nor
restarted (both timers stay scheduled at their original fire times), and
once all timers have fired the displayed text is the second message — the
first message never ends up as the final content. -/
theorem c9_announce_supersedes (s : AnnSt) (t1 t2 : Nat) (m1 m2 : String)
    (hp : s.regionPresent = true)
    (hc : s.regionConnected = true)
    (hempty : s.pendingMsgs = [])
    (hord : t1 ≤ t2)
    (hlt : t2 < t1 + announceDelayMs) :
    (announce s t1 m1).text = "" ∧
    (runAnnouncements (announce s t1 m1)).text = m1 ∧
    (announce (announce s t1 m1) t2 m2).text = "" ∧
    (announce (announce s t1 m1) t2 m2).pendingMsgs =
      [(t1 + announceDelayMs, m1), (t2 + announceDelayMs, m2)] ∧
    (runAnnouncements (announce (announce s t1 m1) t2 m2)).text = m2 := by
  simp [announce, hp, hempty, runAnnouncements, fireAnnounce, hc]

/-- Witness for C9: a present, connected live region showing "old", with
announcements at times 0 and 100 (100 < 0 + 150). -/
theorem c9_announce_supersedes_witness :
    (announce (announce ⟨true, true, "old", []⟩ 0 "first") 100 "second").pendingMsgs =
      [(0 + announceDelayMs, "first"), (100 + announceDelayMs, "second")] ∧
    (runAnnouncements (announce (announce ⟨true, true, "old", []⟩ 0 "first") 100 "second")).text =
      "second" := by
  have h := c9_announce_supersedes ⟨true, true, "old", []⟩ 0 100 "first" "second"
    rfl rfl rfl (by decide) (by decide)
  exact ⟨h.2.2.2.1, h.2.2.2.2⟩

end BtnSys
